import Mathlib

/-!
Verification of the feed-normalization and markup-rendering pipeline of the
news-reader repository (src/rss_to_html.py).  Text is modelled as `List Char`;
the Python string primitives `replace`, `split` and `rsplit` are embedded as
fuel-based structural recursions so that every definition evaluates by kernel
reduction.
-/

namespace NewsReader

/-- Characters of a string literal: the carrier for the text model. -/
def strL (s : String) : List Char := s.data

/-- `leadsWith pat s` is true when `pat` is an initial segment of `s`. -/
def leadsWith : List Char → List Char → Bool
  | [], _ => true
  | _ :: _, [] => false
  | a :: pr, b :: sr => a == b && leadsWith pr sr

/-- `occursIn pat s` is true when `pat` occurs as a contiguous substring of `s`. -/
def occursIn (pat : List Char) : List Char → Bool
  | [] => leadsWith pat []
  | c :: rest => leadsWith pat (c :: rest) || occursIn pat rest

/-- Fuel-driven worker for `replaceL`; scans left to right, replacing each
non-overlapping occurrence of `pat` by `rep` (Python `str.replace`). -/
def replaceFuel (pat rep : List Char) : Nat → List Char → List Char
  | 0, s => s
  | _ + 1, [] => []
  | fuel + 1, c :: rest =>
    if leadsWith pat (c :: rest) then
      rep ++ replaceFuel pat rep fuel (List.drop (pat.length - 1) rest)
    else
      c :: replaceFuel pat rep fuel rest

/-- Python `s.replace(pat, rep)` for a non-empty pattern. -/
def replaceL (pat rep s : List Char) : List Char := replaceFuel pat rep s.length s

/-- Fuel-driven worker for `splitOnL`; splits at each non-overlapping
leftmost occurrence of `pat` (Python `str.split` with a separator). -/
def splitOnFuel (pat : List Char) : Nat → List Char → List (List Char)
  | 0, s => [s]
  | _ + 1, [] => [[]]
  | fuel + 1, c :: rest =>
    if leadsWith pat (c :: rest) then
      [] :: splitOnFuel pat fuel (List.drop (pat.length - 1) rest)
    else
      match splitOnFuel pat fuel rest with
      | [] => [[c]]
      | piece :: more => (c :: piece) :: more

/-- Python `s.split(pat)` for a non-empty separator. -/
def splitOnL (pat s : List Char) : List (List Char) := splitOnFuel pat s.length s

/-- Python `s.rsplit(pat, 1)`: `some (before, after)` splits at the rightmost
occurrence of `pat`; `none` when `pat` does not occur (the one-piece result). -/
def rsplitOnce (pat : List Char) : List Char → Option (List Char × List Char)
  | [] => none
  | c :: rest =>
    match rsplitOnce pat rest with
    | some (a, b) => some (c :: a, b)
    | none =>
      if leadsWith pat (c :: rest) then some ([], List.drop (pat.length - 1) rest)
      else none

/-- Python `sep.join(pieces)`. -/
def joinSep (sep : List Char) : List (List Char) → List Char
  | [] => []
  | [x] => x
  | x :: y :: rest => x ++ sep ++ joinSep sep (y :: rest)

/-- Python `s.endswith(pat)`. -/
def endsWithL (pat s : List Char) : Bool := leadsWith pat.reverse s.reverse

/-- The title separator `" - "` used by `parse_rss_feed` (line 42). -/
def sepDash : List Char := strL (" - ")

/-- Line 40: `entry_title.replace("<strong>", "").replace("</strong>", "")`. -/
def stripBoldTags (t : List Char) : List Char :=
  replaceL (strL ("</strong>")) [] (replaceL (strL ("<strong>")) [] t)

/-- Lines 40-46 of `parse_rss_feed`: strip bold tags, then rsplit once on
`" - "`; on a split, format as `"{headline} [{tag}]"`, else keep verbatim. -/
def cleanEntryTitle (t : List Char) : List Char :=
  match rsplitOnce sepDash (stripBoldTags t) with
  | some (headline, tag) => headline ++ strL (" [") ++ tag ++ strL ("]")
  | none => stripBoldTags t

/-- A raw feed entry as seen by `parse_rss_feed`: each of the three fields
may be absent (`entry.get` supplies the default). -/
structure RawEntry where
  title : Option (List Char)
  description : Option (List Char)
  link : Option (List Char)

/-- A normalized news item: all three fields always present. -/
structure NewsItem where
  title : List Char
  description : List Char
  link : List Char

/-- Lines 39-51: build one item from one entry, defaulting missing fields. -/
def normalizeEntry (entry : RawEntry) : NewsItem where
  title := cleanEntryTitle (entry.title.getD (strL ("No title")))
  description := entry.description.getD []
  link := entry.link.getD []

/-- Lines 37-51: the entry loop of `parse_rss_feed`, one item per entry. -/
def parseEntries (entries : List RawEntry) : List NewsItem :=
  entries.map normalizeEntry

/-- Outcome of the underlying feed fetch: either a parsed feed (entries plus
optional `updated` stamp) or a transport-level failure (the
`http.client.RemoteDisconnected` branch). -/
inductive FetchOutcome where
  | success (entries : List RawEntry) (updated : Option (List Char))
  | transportFailure

/-- Lines 25-52 of `parse_rss_feed`: on transport failure return
`([], "N/a")`; otherwise normalize the entries and pass the stamp through. -/
def parseRssFeed : FetchOutcome → List NewsItem × Option (List Char)
  | FetchOutcome.success entries updated => (parseEntries entries, updated)
  | FetchOutcome.transportFailure => ([], some (strL ("N/a")))

/-- Line 66: `sources_split_pattern`. -/
def sourcesSplitPattern : List Char := strL ("</font></li>")

/-- Line 80: `url_split_pattern`. -/
def urlSplitPattern : List Char := strL ("\" target=\"_blank\">")

/-- Line 86: `title_publisher_split_pattern`. -/
def titlePublisherSplitPattern : List Char :=
  strL ("</a>&nbsp;&nbsp;<font color=\"#6f6f6f\">")

/-- Line 94: the anchor built for one secondary source. -/
def secondarySourceAnchor (url sourceTitle publisher : List Char) : List Char :=
  strL ("<a href=\"") ++ url ++ strL ("\" title=\"") ++ sourceTitle ++
    strL ("\" target=\"_blank\">[") ++ publisher ++ strL ("]</a>")

/-- Lines 80-95: parse one candidate segment; a segment whose split on either
marker does not yield exactly two parts is rejected (`continue`). -/
def parseSecondarySource (source : List Char) : Option (List Char) :=
  match splitOnL urlSplitPattern source with
  | [url, remainder] =>
    match splitOnL titlePublisherSplitPattern remainder with
    | [sourceTitle, publisher] => some (secondarySourceAnchor url sourceTitle publisher)
    | _ => none
  | _ => none

/-- Lines 77-97: the segment loop, keeping the anchors of parsable segments. -/
def processSecondarySources (sources : List (List Char)) : List (List Char) :=
  sources.filterMap parseSecondarySource

/-- Lines 63-65: the literal-substring removals normalizing the description. -/
def stripDescription (description : List Char) : List Char :=
  replaceL (strL ("</strong>")) [] (replaceL (strL ("<strong>")) []
    (replaceL (strL ("</ol>")) [] (replaceL (strL ("<ol>")) []
      (replaceL (strL ("<li><a href=\"")) [] description))))

/-- Lines 63-97: `extract_secondary_sources_from_description`. -/
def extractSecondarySourcesFromDescription (description : List Char) : List (List Char) :=
  if 1 < (splitOnL sourcesSplitPattern (stripDescription description)).length then
    processSecondarySources
      (((splitOnL sourcesSplitPattern (stripDescription description)).drop 1).dropLast)
  else []

/-- The text of one well-formed citation segment: URL, the
`" target="_blank">"` marker, title, the `</a>&nbsp;&nbsp;<font ...>` marker,
publisher (spec 4.2, the markup template matched by the extractor). -/
def googleSourceSegment (url sourceTitle publisher : List Char) : List Char :=
  url ++ urlSplitPattern ++ sourceTitle ++ titlePublisherSplitPattern ++ publisher

/-- `noEarlyHit pat x y`: in `x ++ pat ++ y`, no occurrence of `pat` starts
strictly before position `x.length`; the exhibited occurrence is leftmost. -/
def noEarlyHit (pat x y : List Char) : Prop :=
  ∀ i : Nat, i < x.length → leadsWith pat (List.drop i (x ++ pat ++ y)) = false

instance (pat x y : List Char) : Decidable (noEarlyHit pat x y) :=
  inferInstanceAs (Decidable (∀ i : Nat, i < x.length → leadsWith pat (List.drop i (x ++ pat ++ y)) = false))


/-- The single-quote character (code point 39). -/
def singleQuote : Char := Char.ofNat 39

/-- The boilerplate suffix trimmed by the sanitizer (spec 4.3 step 3). -/
def govSuffix : List Char := strL (" (.gov)")

/-- Whitespace stripped from line ends (space, tab, LF, VT, FF, CR). -/
def isPySpace (c : Char) : Bool :=
  c == ' ' || c == Char.ofNat 9 || c == Char.ofNat 10 ||
    c == Char.ofNat 11 || c == Char.ofNat 12 || c == Char.ofNat 13

/-- Strip leading and trailing whitespace from one line. -/
def stripLine (line : List Char) : List Char :=
  ((line.dropWhile isPySpace).reverse.dropWhile isPySpace).reverse

/-- Modelled from the spec: the repository source under src/ contains no
Markup Sanitizer implementation; spec section 4.3 specifies `sanitize(text)`
as, in order: (1) replace every double quote by a single quote, (2) replace
every literal ampersand by the five characters of the amp entity exactly once
as a literal substring replace, (3) when the text ends with the literal
suffix `" (.gov)"` truncate it at that suffix, (4) split into lines, strip
each line, discard lines that become empty, and rejoin with single newlines. -/
def sanitize (text : List Char) : List Char :=
  let s1 := replaceL (strL ("\"")) [singleQuote] text
  let s2 := replaceL (strL ("&")) (strL ("&amp;")) s1
  let s3 := if endsWithL govSuffix s2 then List.take (s2.length - govSuffix.length) s2 else s2
  joinSep (strL ("\n")) (((splitOnL (strL ("\n")) s3).map stripLine).filter (fun l => !l.isEmpty))

/-- Lines 203-205 of `generate_reuters_html_section`: when the title ends
with `" [Reuters]"`, keep `title[:-11]` (the source drops 11 characters). -/
def reutersDisplayTitle (t : List Char) : List Char :=
  if endsWithL (strL (" [Reuters]")) t then List.take (t.length - 11) t else t

/-- Lines 176-182: one `<li>` of the Google News section; with citations the
anchors are appended, joined by single spaces. -/
def googleNewsListItem (item : NewsItem) : List Char :=
  if !(extractSecondarySourcesFromDescription item.description).isEmpty then
    strL ("            <li><a href=\"") ++ item.link ++ strL ("\" title=\"") ++ item.title ++
      strL ("\" target=\"_blank\"><strong>") ++ item.title ++ strL ("</strong></a> ") ++
      joinSep (strL (" ")) (extractSecondarySourcesFromDescription item.description) ++
      strL ("</li>\n")
  else
    strL ("            <li><a href=\"") ++ item.link ++ strL ("\" title=\"") ++ item.title ++
      strL ("\" target=\"_blank\"><strong>") ++ item.title ++ strL ("</strong></a></li>\n")

/-- Lines 203-206: one `<li>` of the Reuters section. -/
def reutersListItem (item : NewsItem) : List Char :=
  strL ("            <li><a href=\"") ++ item.link ++ strL ("\" target=\"_blank\"><strong>") ++
    reutersDisplayTitle item.title ++ strL ("</strong></a></li>\n")

/-- Line 231: one `<li>` of the Reddit Technology section. -/
def redditTechnologyListItem (item : NewsItem) : List Char :=
  strL ("            <li><a href=\"") ++ item.link ++ strL ("\" target=\"_blank\"><strong>") ++
    item.title ++ strL ("</strong></a></li>\n")

/-- Line 252: one `<li>` of a generic news section. -/
def genericListItem (item : NewsItem) : List Char :=
  strL ("            <li><a href=\"") ++ item.link ++ strL ("\" title=\"") ++ item.description ++
    strL ("\" target=\"_blank\"><strong>") ++ item.title ++ strL ("</strong><br>") ++
    item.description ++ strL ("</a></li>\n")

/-- Line 175: the item loop `for item in google_news_items[:max_news_items]`. -/
def googleNewsSectionItems (items : List NewsItem) (maxNewsItems : Nat) : List (List Char) :=
  (items.take maxNewsItems).map googleNewsListItem

/-- Line 202: the item loop `for item in reuters_items[:max_news_items]`. -/
def reutersSectionItems (items : List NewsItem) (maxNewsItems : Nat) : List (List Char) :=
  (items.take maxNewsItems).map reutersListItem

/-- Line 230: the item loop over `reddit_technology_items[:max_news_items]`. -/
def redditTechnologySectionItems (items : List NewsItem) (maxNewsItems : Nat) : List (List Char) :=
  (items.take maxNewsItems).map redditTechnologyListItem

/-- Line 251: the item loop `for item in news_items[:max_news_items]`. -/
def genericSectionItems (items : List NewsItem) (maxNewsItems : Nat) : List (List Char) :=
  (items.take maxNewsItems).map genericListItem


set_option maxRecDepth 40000

lemma leadsWith_append_self (pat y : List Char) : leadsWith pat (pat ++ y) = true := by
  induction pat with
  | nil => rfl
  | cons a pr ih => simp [leadsWith, ih]

lemma occursIn_cons_false {pat : List Char} {c : Char} {rest : List Char}
    (h : occursIn pat (c :: rest) = false) :
    leadsWith pat (c :: rest) = false ∧ occursIn pat rest = false := by
  simpa [occursIn] using h

lemma rsplitOnce_eq_none (pat : List Char) :
    ∀ s, occursIn pat s = false → rsplitOnce pat s = none := by
  intro s
  induction s with
  | nil => intro _; rfl
  | cons c rest ih =>
    intro h
    obtain ⟨h1, h2⟩ := occursIn_cons_false h
    simp [rsplitOnce, ih h2, h1]

lemma rsplitOnce_append (pat b : List Char) (hp : pat ≠ [])
    (hb : occursIn pat (pat.drop 1 ++ b) = false) :
    ∀ a, rsplitOnce pat (a ++ (pat ++ b)) = some (a, b) := by
  intro a
  induction a with
  | nil =>
    obtain ⟨p, ps, rfl⟩ : ∃ p ps, pat = p :: ps := by
      cases pat with
      | nil => exact absurd rfl hp
      | cons p ps => exact ⟨p, ps, rfl⟩
    have hrest : rsplitOnce (p :: ps) (ps ++ b) = none :=
      rsplitOnce_eq_none _ _ (by simpa using hb)
    have hlead : leadsWith (p :: ps) (p :: (ps ++ b)) = true := by
      simpa using leadsWith_append_self (p :: ps) b
    simp [rsplitOnce, hrest, hlead, List.drop_left]
  | cons c a2 ih =>
    simp [rsplitOnce, ih]


lemma splitOnFuel_congr (pat : List Char) :
    ∀ f1 f2 s, s.length ≤ f1 → s.length ≤ f2 → splitOnFuel pat f1 s = splitOnFuel pat f2 s := by
  intro f1
  induction f1 with
  | zero =>
    intro f2 s h1 _
    have hs : s = [] := List.eq_nil_of_length_eq_zero (Nat.le_zero.mp h1)
    subst hs
    cases f2 <;> rfl
  | succ g ih =>
    intro f2 s h1 h2
    cases s with
    | nil => cases f2 <;> rfl
    | cons c rest =>
      cases f2 with
      | zero => simp at h2
      | succ g2 =>
        have hr1 : rest.length ≤ g := by simp at h1; omega
        have hr2 : rest.length ≤ g2 := by simp at h2; omega
        by_cases hl : leadsWith pat (c :: rest) = true
        · have hd1 : (List.drop (pat.length - 1) rest).length ≤ g := by
            simp [List.length_drop]; omega
          have hd2 : (List.drop (pat.length - 1) rest).length ≤ g2 := by
            simp [List.length_drop]; omega
          simp [splitOnFuel, hl, ih g2 _ hd1 hd2]
        · have hl2 : leadsWith pat (c :: rest) = false := by
            cases h : leadsWith pat (c :: rest) with
            | false => rfl
            | true => exact absurd h hl
          simp [splitOnFuel, hl2, ih g2 rest hr1 hr2]

lemma splitOnL_cons_hit {pat : List Char} {c : Char} {rest : List Char}
    (h : leadsWith pat (c :: rest) = true) :
    splitOnL pat (c :: rest) = [] :: splitOnL pat (List.drop (pat.length - 1) rest) := by
  unfold splitOnL
  simp only [List.length_cons, splitOnFuel, h, if_true]
  exact congrArg _ (splitOnFuel_congr pat _ _ _
    (le_trans (by simp [List.length_drop]) (Nat.le_refl rest.length)) (Nat.le_refl _))

lemma splitOnL_cons_miss {pat : List Char} {c : Char} {rest : List Char}
    (h : leadsWith pat (c :: rest) = false) :
    splitOnL pat (c :: rest) =
      match splitOnL pat rest with
      | [] => [[c]]
      | piece :: more => (c :: piece) :: more := by
  unfold splitOnL
  simp only [List.length_cons, splitOnFuel, h]
  rfl

lemma splitOnL_eq_single (pat : List Char) :
    ∀ s, occursIn pat s = false → splitOnL pat s = [s] := by
  intro s
  induction s with
  | nil => intro _; rfl
  | cons c rest ih =>
    intro h
    obtain ⟨h1, h2⟩ := occursIn_cons_false h
    rw [splitOnL_cons_miss h1, ih h2]

lemma splitOnL_append (pat y : List Char) (hp : pat ≠ []) :
    ∀ x, noEarlyHit pat x y → splitOnL pat (x ++ (pat ++ y)) = x :: splitOnL pat y := by
  intro x
  induction x with
  | nil =>
    intro _
    obtain ⟨p, ps, rfl⟩ : ∃ p ps, pat = p :: ps := by
      cases pat with
      | nil => exact absurd rfl hp
      | cons p ps => exact ⟨p, ps, rfl⟩
    have hlead : leadsWith (p :: ps) (p :: (ps ++ y)) = true := by
      simpa using leadsWith_append_self (p :: ps) y
    simp only [List.nil_append, List.cons_append]
    rw [splitOnL_cons_hit hlead]
    simp [List.drop_left]
  | cons c x2 ih =>
    intro hx
    have h0 : leadsWith pat (c :: (x2 ++ (pat ++ y))) = false := by
      have := hx 0 (by simp)
      simpa using this
    have hx2 : noEarlyHit pat x2 y := by
      intro i hi
      have := hx (i + 1) (by simp; omega)
      simpa [List.drop_succ_cons] using this
    simp only [List.cons_append, List.append_assoc] at *
    rw [splitOnL_cons_miss h0, ih hx2]


lemma parseSecondarySource_wellFormed (u t p : List Char)
    (hu : noEarlyHit urlSplitPattern u (t ++ titlePublisherSplitPattern ++ p))
    (hr : occursIn urlSplitPattern (t ++ titlePublisherSplitPattern ++ p) = false)
    (ht : noEarlyHit titlePublisherSplitPattern t p)
    (hq : occursIn titlePublisherSplitPattern p = false) :
    parseSecondarySource (googleSourceSegment u t p) = some (secondarySourceAnchor u t p) := by
  unfold parseSecondarySource googleSourceSegment
  have hassoc : (u ++ urlSplitPattern ++ t ++ titlePublisherSplitPattern ++ p : List Char) =
      u ++ (urlSplitPattern ++ (t ++ titlePublisherSplitPattern ++ p)) := by
    simp [List.append_assoc]
  have hinner : splitOnL titlePublisherSplitPattern (t ++ (titlePublisherSplitPattern ++ p)) = [t, p] := by
    rw [splitOnL_append titlePublisherSplitPattern _ (by decide) t ht]
    rw [splitOnL_eq_single _ _ hq]
  rw [hassoc, splitOnL_append urlSplitPattern _ (by decide) u hu]
  rw [splitOnL_eq_single _ _ hr]
  simp [hinner]

lemma parseSecondarySource_eq_none {bad : List Char}
    (h : occursIn urlSplitPattern bad = false) :
    parseSecondarySource bad = none := by
  unfold parseSecondarySource
  rw [splitOnL_eq_single _ _ h]

lemma length_filterMap_of_isSome {α β : Type} (f : α → Option β) :
    ∀ l : List α, (∀ s ∈ l, (f s).isSome = true) → (l.filterMap f).length = l.length := by
  intro l
  induction l with
  | nil => intro _; rfl
  | cons a l2 ih =>
    intro h
    obtain ⟨b, hb⟩ := Option.isSome_iff_exists.mp (h a (by simp))
    simp [List.filterMap_cons, hb, ih (fun s hs => h s (by simp [hs]))]

lemma sectionItems_take_map (f : NewsItem → List Char) (items : List NewsItem) (m : Nat) :
    ((items.take m).map f).length = min m items.length ∧
    ((items.take m).map f).length ≤ m ∧
    ∀ i : Nat, i < m → ((items.take m).map f)[i]? = (items[i]?).map f := by
  refine ⟨by simp [List.length_take], ?_, fun i hi => ?_⟩
  · simp [List.length_take]
  · rw [List.getElem?_map, List.getElem?_take_of_lt hi]


/-- Claim C1: for every feed entry whose bold-tag-stripped title contains the
separator " - ", the normalizer splits exactly once at the rightmost
occurrence (rsplit semantics): the text before it becomes the headline, the
text after it the source tag, and the display title is
"<headline> [<sourceTag>]". The second hypothesis states that the exhibited
occurrence is the rightmost one: no occurrence of the separator starts
strictly to its right. -/
theorem title_rsplit_rightmost (t headline tag : List Char)
    (ht : stripBoldTags t = headline ++ (sepDash ++ tag))
    (hlast : occursIn sepDash (sepDash.drop 1 ++ tag) = false) :
    cleanEntryTitle t = headline ++ strL (" [") ++ tag ++ strL ("]") := by
  unfold cleanEntryTitle
  rw [ht, rsplitOnce_append sepDash tag (by decide) hlast headline]

/-- Witness for C1: the title "A - B - C" yields display title "A - B [C]". -/
theorem title_rsplit_rightmost_witness :
    cleanEntryTitle (strL ("A - B - C")) =
      strL ("A - B") ++ strL (" [") ++ strL ("C") ++ strL ("]") :=
  title_rsplit_rightmost (strL ("A - B - C")) (strL ("A - B")) (strL ("C"))
    (by decide) (by decide)

/-- Claim C9 (counterexample): the claim as stated quantifies over entries
whose raw title contains no " - "; the title " -<strong> x" contains no
" - ", yet stripping the bold tag creates one, so the display title is not
the tag-stripped input used verbatim. -/
theorem no_separator_verbatim_cex :
    occursIn sepDash (strL (" -<strong> x")) = false ∧
    cleanEntryTitle (strL (" -<strong> x")) ≠ stripBoldTags (strL (" -<strong> x")) := by
  decide

/-- Claim C9 (amended): for every entry whose bold-tag-stripped title
contains no " - " substring, the display title is the tag-stripped title
verbatim (no bracketed tag appended). -/
theorem no_separator_verbatim (t : List Char)
    (h : occursIn sepDash (stripBoldTags t) = false) :
    cleanEntryTitle t = stripBoldTags t := by
  unfold cleanEntryTitle
  rw [rsplitOnce_eq_none sepDash _ h]

/-- Witness for C9: a title with bold tags and no separator is rendered as
its tag-stripped form. -/
theorem no_separator_verbatim_witness :
    cleanEntryTitle (strL ("Big <strong>news</strong> today")) =
      stripBoldTags (strL ("Big <strong>news</strong> today")) :=
  no_separator_verbatim _ (by decide)

/-- Claim C5: normalization produces exactly one item per entry, in entry
order, and every item has all three fields present: a missing title defaults
to "No title", a missing description or link to the empty string. -/
theorem normalization_shape (entries : List RawEntry) :
    (parseEntries entries).length = entries.length ∧
    (∀ i : Nat, (parseEntries entries)[i]? = (entries[i]?).map normalizeEntry) ∧
    (∀ e : RawEntry, e.title = none → (normalizeEntry e).title = strL ("No title")) ∧
    (∀ e : RawEntry, e.description = none → (normalizeEntry e).description = []) ∧
    (∀ e : RawEntry, e.link = none → (normalizeEntry e).link = []) := by
  refine ⟨by simp [parseEntries], fun i => by simp [parseEntries], fun e he => ?_,
    fun e he => by simp [normalizeEntry, he], fun e he => by simp [normalizeEntry, he]⟩
  have hd : (normalizeEntry e).title = cleanEntryTitle (strL ("No title")) := by
    simp [normalizeEntry, he]
  rw [hd]
  decide

/-- Witness for C5: an entry with all three fields absent normalizes to the
placeholder title. -/
theorem normalization_shape_witness :
    (normalizeEntry { title := none, description := none, link := none }).title =
      strL ("No title") :=
  (normalization_shape []).2.2.1 { title := none, description := none, link := none } rfl

/-- Claim C7: on a transport-level fetch failure, `parse_rss_feed` returns
the empty item sequence together with the "N/a" sentinel stamp instead of
propagating the failure. -/
theorem transport_failure_sentinel :
    parseRssFeed FetchOutcome.transportFailure = ([], some (strL ("N/a"))) := rfl

/-- Claim C4 (spec-modelled sanitizer): the spec example
sanitize('He said "hi" & left (.gov)') = "He said 'hi' &amp; left", and a
multi-line example exercising the whitespace-collapsing step. -/
theorem sanitize_spec_example :
    sanitize (strL ("He said \"hi\" & left (.gov)")) =
      strL ("He said ") ++ [singleQuote] ++ strL ("hi") ++ [singleQuote] ++
        strL (" &amp; left") ∧
    sanitize (strL ("  a  \n   \n b & b  ")) = strL ("a\nb &amp; b") := by
  decide

/-- Claim C6 (code bug): the source drops 11 characters for the 10-character
suffix " [Reuters]" (`title[:-11]`), so "ABC [Reuters]" renders as "AB"
instead of the claimed "ABC". -/
theorem reuters_tag_strip_off_by_one :
    reutersDisplayTitle (strL ("ABC [Reuters]")) = strL ("AB") ∧
    reutersDisplayTitle (strL ("ABC [Reuters]")) ≠ strL ("ABC") := by
  decide


/-- Claim C2: a well-formed Google-News-style description whose normalized
text consists of a primary preamble followed by exactly two citation
segments, each terminated by the "</font></li>" marker and internally
well-formed (the markers occur exactly where the template places them, and
url, title and publisher are non-empty), extracts to exactly two citations
in original order, each rendered as the titled anchor. -/
theorem two_citation_extraction
    (d preamble u1 t1 p1 u2 t2 p2 : List Char)
    (hshape : stripDescription d =
      preamble ++ (sourcesSplitPattern ++ (googleSourceSegment u1 t1 p1 ++
        (sourcesSplitPattern ++ (googleSourceSegment u2 t2 p2 ++ sourcesSplitPattern)))))
    (h0 : noEarlyHit sourcesSplitPattern preamble
      (googleSourceSegment u1 t1 p1 ++
        (sourcesSplitPattern ++ (googleSourceSegment u2 t2 p2 ++ sourcesSplitPattern))))
    (h1 : noEarlyHit sourcesSplitPattern (googleSourceSegment u1 t1 p1)
      (googleSourceSegment u2 t2 p2 ++ sourcesSplitPattern))
    (h2 : noEarlyHit sourcesSplitPattern (googleSourceSegment u2 t2 p2) [])
    (hu1 : noEarlyHit urlSplitPattern u1 (t1 ++ titlePublisherSplitPattern ++ p1))
    (hr1 : occursIn urlSplitPattern (t1 ++ titlePublisherSplitPattern ++ p1) = false)
    (ht1 : noEarlyHit titlePublisherSplitPattern t1 p1)
    (hq1 : occursIn titlePublisherSplitPattern p1 = false)
    (hu2 : noEarlyHit urlSplitPattern u2 (t2 ++ titlePublisherSplitPattern ++ p2))
    (hr2 : occursIn urlSplitPattern (t2 ++ titlePublisherSplitPattern ++ p2) = false)
    (ht2 : noEarlyHit titlePublisherSplitPattern t2 p2)
    (hq2 : occursIn titlePublisherSplitPattern p2 = false)
    (hne1 : u1 ≠ [] ∧ t1 ≠ [] ∧ p1 ≠ [])
    (hne2 : u2 ≠ [] ∧ t2 ≠ [] ∧ p2 ≠ []) :
    extractSecondarySourcesFromDescription d =
      [secondarySourceAnchor u1 t1 p1, secondarySourceAnchor u2 t2 p2] := by
  have e1 := parseSecondarySource_wellFormed u1 t1 p1 hu1 hr1 ht1 hq1
  have e2 := parseSecondarySource_wellFormed u2 t2 p2 hu2 hr2 ht2 hq2
  have hpieces : splitOnL sourcesSplitPattern (stripDescription d) =
      [preamble, googleSourceSegment u1 t1 p1, googleSourceSegment u2 t2 p2, []] := by
    rw [hshape]
    rw [splitOnL_append sourcesSplitPattern _ (by decide) preamble h0]
    rw [splitOnL_append sourcesSplitPattern _ (by decide) _ h1]
    have hnil : (googleSourceSegment u2 t2 p2 ++ sourcesSplitPattern : List Char) =
        googleSourceSegment u2 t2 p2 ++ (sourcesSplitPattern ++ []) := by simp
    rw [hnil, splitOnL_append sourcesSplitPattern _ (by decide) _ h2]
    rfl
  unfold extractSecondarySourcesFromDescription
  rw [hpieces]
  simp [processSecondarySources, List.filterMap_cons, e1, e2]

/-- Witness for C2: a three-item Google News description (primary source
plus two citations) extracts to the two citation anchors in order. -/
theorem two_citation_extraction_witness :
    extractSecondarySourcesFromDescription
      (strL ("<ol><li><a href=\"a\" target=\"_blank\">b</a>&nbsp;&nbsp;<font color=\"#6f6f6f\">c</font></li><li><a href=\"d\" target=\"_blank\">e</a>&nbsp;&nbsp;<font color=\"#6f6f6f\">f</font></li><li><a href=\"g\" target=\"_blank\">h</a>&nbsp;&nbsp;<font color=\"#6f6f6f\">i</font></li></ol>")) =
      [secondarySourceAnchor (strL ("d")) (strL ("e")) (strL ("f")),
       secondarySourceAnchor (strL ("g")) (strL ("h")) (strL ("i"))] :=
  two_citation_extraction _
    (strL ("a\" target=\"_blank\">b</a>&nbsp;&nbsp;<font color=\"#6f6f6f\">c"))
    (strL ("d")) (strL ("e")) (strL ("f")) (strL ("g")) (strL ("h")) (strL ("i"))
    (by decide) (by decide) (by decide) (by decide) (by decide) (by decide) (by decide)
    (by decide) (by decide) (by decide) (by decide) (by decide) (by decide) (by decide)

/-- Claim C3: the segment loop is total; a candidate segment on which the
url-marker split does not yield exactly two parts is skipped while every
well-formed sibling still produces its citation, so a segment list with
exactly one such malformed segment yields exactly one fewer citation than
the number of segments. -/
theorem malformed_segment_skipped (pre post : List (List Char)) (bad : List Char)
    (hbad : occursIn urlSplitPattern bad = false)
    (hpre : ∀ s ∈ pre, (parseSecondarySource s).isSome = true)
    (hpost : ∀ s ∈ post, (parseSecondarySource s).isSome = true) :
    processSecondarySources (pre ++ bad :: post) =
      processSecondarySources pre ++ processSecondarySources post ∧
    (processSecondarySources (pre ++ bad :: post)).length = (pre ++ bad :: post).length - 1 := by
  have hb := parseSecondarySource_eq_none hbad
  constructor
  · simp [processSecondarySources, List.filterMap_append, List.filterMap_cons, hb]
  · simp [processSecondarySources, List.filterMap_append, List.filterMap_cons, hb,
      length_filterMap_of_isSome _ pre hpre, length_filterMap_of_isSome _ post hpost]

/-- Witness for C3: two well-formed segments around one segment lacking the
url marker produce two citations: one fewer than the three segments. -/
theorem malformed_segment_skipped_witness :
    processSecondarySources
        ([strL ("a\" target=\"_blank\">b</a>&nbsp;&nbsp;<font color=\"#6f6f6f\">c")] ++
          strL ("oops") ::
          [strL ("d\" target=\"_blank\">e</a>&nbsp;&nbsp;<font color=\"#6f6f6f\">f")]) =
      processSecondarySources
        [strL ("a\" target=\"_blank\">b</a>&nbsp;&nbsp;<font color=\"#6f6f6f\">c")] ++
      processSecondarySources
        [strL ("d\" target=\"_blank\">e</a>&nbsp;&nbsp;<font color=\"#6f6f6f\">f")] ∧
    (processSecondarySources
        ([strL ("a\" target=\"_blank\">b</a>&nbsp;&nbsp;<font color=\"#6f6f6f\">c")] ++
          strL ("oops") ::
          [strL ("d\" target=\"_blank\">e</a>&nbsp;&nbsp;<font color=\"#6f6f6f\">f")])).length =
      ([strL ("a\" target=\"_blank\">b</a>&nbsp;&nbsp;<font color=\"#6f6f6f\">c")] ++
        strL ("oops") ::
        [strL ("d\" target=\"_blank\">e</a>&nbsp;&nbsp;<font color=\"#6f6f6f\">f")]).length - 1 :=
  malformed_segment_skipped _ _ _ (by decide) (by decide) (by decide)

/-- Claim C8 (counterexample): the claim as stated quantifies over raw
descriptions not containing "</font></li>"; this description contains no
such marker, yet the literal-substring removals create two markers and the
extractor returns a citation, not the empty sequence. -/
theorem extractor_no_marker_cex :
    occursIn sourcesSplitPattern
      (strL ("A</font><strong></li>u\" target=\"_blank\">t</a>&nbsp;&nbsp;<font color=\"#6f6f6f\">p</font><strong></li>")) = false ∧
    extractSecondarySourcesFromDescription
      (strL ("A</font><strong></li>u\" target=\"_blank\">t</a>&nbsp;&nbsp;<font color=\"#6f6f6f\">p</font><strong></li>")) ≠ [] := by
  decide

/-- Claim C8 (amended): for the empty description and every description
whose normalized text (after the literal-substring removals) does not
contain "</font></li>" -- so the split yields one piece -- extraction
returns the empty sequence. -/
theorem extractor_no_marker_empty (description : List Char)
    (h : occursIn sourcesSplitPattern (stripDescription description) = false) :
    extractSecondarySourcesFromDescription description = [] := by
  unfold extractSecondarySourcesFromDescription
  rw [splitOnL_eq_single _ _ h]
  rfl

/-- Witness for C8: the empty description extracts to no citations. -/
theorem extractor_no_marker_empty_witness :
    extractSecondarySourcesFromDescription (strL ("")) = [] :=
  extractor_no_marker_empty _ (by decide)

/-- Claim C10: each of the four section generators renders exactly the first
min(limit, length) items of its list, one list entry per item, in list
order, and never more than the limit. -/
theorem sections_render_first_min (items : List NewsItem) (maxNewsItems : Nat) :
    ((googleNewsSectionItems items maxNewsItems).length = min maxNewsItems items.length ∧
      (googleNewsSectionItems items maxNewsItems).length ≤ maxNewsItems ∧
      ∀ i : Nat, i < maxNewsItems →
        (googleNewsSectionItems items maxNewsItems)[i]? = (items[i]?).map googleNewsListItem) ∧
    ((reutersSectionItems items maxNewsItems).length = min maxNewsItems items.length ∧
      (reutersSectionItems items maxNewsItems).length ≤ maxNewsItems ∧
      ∀ i : Nat, i < maxNewsItems →
        (reutersSectionItems items maxNewsItems)[i]? = (items[i]?).map reutersListItem) ∧
    ((redditTechnologySectionItems items maxNewsItems).length = min maxNewsItems items.length ∧
      (redditTechnologySectionItems items maxNewsItems).length ≤ maxNewsItems ∧
      ∀ i : Nat, i < maxNewsItems →
        (redditTechnologySectionItems items maxNewsItems)[i]? =
          (items[i]?).map redditTechnologyListItem) ∧
    ((genericSectionItems items maxNewsItems).length = min maxNewsItems items.length ∧
      (genericSectionItems items maxNewsItems).length ≤ maxNewsItems ∧
      ∀ i : Nat, i < maxNewsItems →
        (genericSectionItems items maxNewsItems)[i]? = (items[i]?).map genericListItem) :=
  ⟨sectionItems_take_map googleNewsListItem items maxNewsItems,
   sectionItems_take_map reutersListItem items maxNewsItems,
   sectionItems_take_map redditTechnologyListItem items maxNewsItems,
   sectionItems_take_map genericListItem items maxNewsItems⟩

/-- Witness for C10: with a limit of 1 and two items, position 0 of the
rendered Google News section is the rendering of item 0. -/
theorem sections_render_first_min_witness :
    (googleNewsSectionItems
        [{ title := strL ("t"), description := [], link := strL ("l") },
         { title := strL ("u"), description := [], link := strL ("m") }] 1)[0]? =
      (([{ title := strL ("t"), description := [], link := strL ("l") },
         { title := strL ("u"), description := [], link := strL ("m") }] :
        List NewsItem)[0]?).map googleNewsListItem :=
  (sections_render_first_min
    [{ title := strL ("t"), description := [], link := strL ("l") },
     { title := strL ("u"), description := [], link := strL ("m") }] 1).1.2.2 0 (by decide)

end NewsReader
